import Mathlib

/-!
Verification of the StyleGen AI external-API orchestration layer.

The definitions below are a shallow embedding of the JavaScript source:
* `src/StyleGenAI/backend/simple.js` — the running server: the
  `generateWithHuggingFace` provider client (lines 50-157), the
  `generateWithReplicate` backup client (lines 160-228), and the
  `POST /api/designs/generate` handler (lines 268-431).
* `src/StyleGenAI/backend/config/huggingface.js` — the prompt builder
  `generateFashionPrompt` (lines 83-167) and the response classification of
  `generateDesign` (lines 205-230).

Network effects are modelled by passing the provider behaviour in
explicitly: the Hugging Face client receives the list of HTTP outcomes it
would observe on successive attempts, the Replicate client a single
outcome.  All string operations mirror the JavaScript ones: `jsIncludes`
is `String.prototype.includes`, `jsJoin` is `Array.prototype.join`,
`jsOrStr` is the `x || dflt` idiom on strings (only the empty string is
falsy), and `base64Encode` is the Buffer base64 conversion.  The template
strings in the source are ASCII, so UTF-8 bytes coincide with code points.
-/

namespace StyleGen

/-! ## JavaScript string primitives -/

/-- Boolean test that `needle` is a prefix of `hay` (character lists). -/
def listIsPre (needle hay : List Char) : Bool :=
  match needle, hay with
  | [], _ => true
  | _ :: _, [] => false
  | a :: ns, b :: hs => a == b && listIsPre ns hs

/-- Boolean test that `needle` occurs contiguously inside `hay`. -/
def listHasInfix (needle : List Char) : List Char → Bool
  | [] => needle.isEmpty
  | c :: rest => listIsPre needle (c :: rest) || listHasInfix needle rest

/-- JavaScript `s.includes(t)`: substring containment. -/
def jsIncludes (s t : String) : Bool :=
  listHasInfix t.toList s.toList

/-- JavaScript `s.startsWith(t)` as used to say a data URL is an SVG URL. -/
def jsStartsWith (s t : String) : Bool :=
  listIsPre t.toList s.toList

/-- JavaScript `Array.prototype.join(sep)` on a list of strings. -/
def jsJoin (sep : String) : List String → String
  | [] => ""
  | [x] => x
  | x :: y :: rest => x ++ sep ++ jsJoin sep (y :: rest)

/-- JavaScript `x || dflt` applied to a possibly-absent string: `undefined`
and the empty string are falsy, everything else is returned unchanged. -/
def jsOrStr (o : Option String) (dflt : String) : String :=
  match o with
  | none => dflt
  | some s => if s = "" then dflt else s

/-- The base64 alphabet used by the Buffer base64 conversion. -/
def base64Chars : List Char :=
  "ABCDEFGHIJKLMNOPQRSTUVWXYZabcdefghijklmnopqrstuvwxyz0123456789+/".toList

/-- The base64 digit for a 6-bit value. -/
def b64c (n : Nat) : Char := base64Chars.getD n 'A'

/-- Standard base64 encoding of a byte list, with `=` padding, as produced
by the Buffer base64 conversion. -/
def base64Encode : List Nat → String
  | [] => ""
  | [a] =>
    String.mk [b64c (a / 4), b64c (a % 4 * 16), '=', '=']
  | [a, b] =>
    String.mk [b64c (a / 4), b64c (a % 4 * 16 + b / 16), b64c (b % 16 * 4), '=']
  | a :: b :: c :: rest =>
    String.mk [b64c (a / 4), b64c (a % 4 * 16 + b / 16),
               b64c (b % 16 * 4 + c / 64), b64c (c % 64)]
      ++ base64Encode rest

/-- UTF-8 bytes of an ASCII string (all template strings in the source are
ASCII, where UTF-8 bytes and code points coincide). -/
def strBytes (s : String) : List Nat :=
  s.toList.map Char.toNat

/-- The Buffer base64 rendering of an ASCII string `s`. -/
def strBase64 (s : String) : String :=
  base64Encode (strBytes s)

/-- Decoding of a received byte buffer back to text, `buffer.toString()`;
faithful for ASCII payloads. -/
def bytesToStr (l : List Nat) : String :=
  String.mk (l.map fun n => Char.ofNat n)

/-! ## Lemmas about the string primitives -/

theorem strToList_append (a b : String) : (a ++ b).toList = a.toList ++ b.toList := by
  simp [String.toList, String.data_append]

theorem listIsPre_refl (l : List Char) : listIsPre l l = true := by
  induction l with
  | nil => rfl
  | cons c t ih => simp [listIsPre, ih]

theorem listIsPre_append (t l b : List Char) (h : listIsPre t l = true) :
    listIsPre t (l ++ b) = true := by
  induction t generalizing l with
  | nil => rfl
  | cons c ts ih =>
    cases l with
    | nil => simp [listIsPre] at h
    | cons d ls =>
      simp only [listIsPre, Bool.and_eq_true] at h
      simp only [List.cons_append, listIsPre, Bool.and_eq_true]
      exact ⟨h.1, ih ls h.2⟩

theorem listHasInfix_nil (l : List Char) : listHasInfix [] l = true := by
  cases l with
  | nil => rfl
  | cons c t => simp [listHasInfix, listIsPre]

theorem listHasInfix_append_right (a b t : List Char)
    (h : listHasInfix t b = true) : listHasInfix t (a ++ b) = true := by
  induction a with
  | nil => simpa using h
  | cons c rest ih =>
    simp only [List.cons_append, listHasInfix, Bool.or_eq_true]
    exact Or.inr ih

theorem listHasInfix_append_left (a b t : List Char)
    (h : listHasInfix t a = true) : listHasInfix t (a ++ b) = true := by
  induction a with
  | nil =>
    simp only [listHasInfix, List.isEmpty_iff] at h
    subst h
    simpa using listHasInfix_nil b
  | cons c rest ih =>
    simp only [listHasInfix, Bool.or_eq_true] at h
    simp only [List.cons_append, listHasInfix, Bool.or_eq_true]
    cases h with
    | inl hp => exact Or.inl (listIsPre_append _ _ _ hp)
    | inr hi => exact Or.inr (ih hi)

theorem jsIncludes_refl (s : String) : jsIncludes s s = true := by
  unfold jsIncludes
  cases hs : s.toList with
  | nil => rfl
  | cons c t => simp [listHasInfix, listIsPre_refl]

theorem jsIncludes_append_left (a b t : String)
    (h : jsIncludes a t = true) : jsIncludes (a ++ b) t = true := by
  unfold jsIncludes at *
  rw [strToList_append]
  exact listHasInfix_append_left _ _ _ h

theorem jsIncludes_append_right (a b t : String)
    (h : jsIncludes b t = true) : jsIncludes (a ++ b) t = true := by
  unfold jsIncludes at *
  rw [strToList_append]
  exact listHasInfix_append_right _ _ _ h

theorem jsIncludes_jsJoin (sep : String) (l : List String) (x : String)
    (hx : x ∈ l) : jsIncludes (jsJoin sep l) x = true := by
  induction l with
  | nil => cases hx
  | cons a rest ih =>
    cases rest with
    | nil =>
      rcases List.mem_singleton.mp hx with rfl
      simpa [jsJoin] using jsIncludes_refl x
    | cons y t =>
      rcases List.mem_cons.mp hx with rfl | hmem
      · show jsIncludes (x ++ sep ++ jsJoin sep (y :: t)) x = true
        exact jsIncludes_append_left _ _ _
          (jsIncludes_append_left _ _ _ (jsIncludes_refl x))
      · show jsIncludes (a ++ sep ++ jsJoin sep (y :: t)) x = true
        exact jsIncludes_append_right _ _ _ (ih hmem)

theorem jsStartsWith_append (pre b : String) :
    jsStartsWith (pre ++ b) pre = true := by
  unfold jsStartsWith
  rw [strToList_append]
  exact listIsPre_append _ _ _ (listIsPre_refl _)

/-! ## The primary provider client — `generateWithHuggingFace`
(`simple.js` lines 50-157).

The HTTP outcome of each attempt is supplied as a list: the head is what
attempt 1 observes, the tail what later attempts observe.  `HfResp.ok` is
an HTTP response with status code and body bytes; `HfResp.netErr` covers
request errors, response stream errors and timeouts, which the source
treats identically (retry while the budget lasts, else reject). -/

inductive HfResp where
  | ok (status : Nat) (body : List Nat)
  | netErr (msg : String)
deriving DecidableEq, Repr

/-- The resolved value of a provider call: `{ imageUrl, prompt }`. -/
structure HfOk where
  imageUrl : String
  prompt : String
deriving DecidableEq, Repr

/-- `data:image/jpeg;base64,` URL built from response bytes on HTTP 200
(`simple.js` lines 100-101). -/
def jpegUrl (body : List Nat) : String :=
  "data:image/jpeg;base64," ++ base64Encode body

/-- The 50MB buffered-response cap (`simple.js` line 88). -/
def hfSizeCap : Nat := 50 * 1024 * 1024

/-- One `attemptRequest(attemptNumber)` step and its recursion
(`simple.js` lines 76-153).  Returns the settled promise together with the
number of attempts issued.  Status 200 resolves; 503 and 429 retry while
`attemptNumber <= retries`; every other status rejects with status and
body; network errors retry while the budget lasts.  An oversized body
rejects without retry.  The second component counts issued attempts. -/
def hfAttempt (prompt : String) (retries : Nat) :
    List HfResp → Nat → Except String HfOk × Nat
  | [], n => (Except.error "no response", n - 1)
  | resp :: rest, n =>
    match resp with
    | HfResp.netErr msg =>
      if n ≤ retries then hfAttempt prompt retries rest (n + 1)
      else (Except.error ("Request error: " ++ msg), n)
    | HfResp.ok status body =>
      if hfSizeCap < body.length then (Except.error "Response too large", n)
      else if status = 200 then (Except.ok ⟨jpegUrl body, prompt⟩, n)
      else if status = 503 ∧ n ≤ retries then hfAttempt prompt retries rest (n + 1)
      else if status = 429 ∧ n ≤ retries then hfAttempt prompt retries rest (n + 1)
      else
        (Except.error
          ("Hugging Face API error: " ++ toString status ++ " - " ++ bytesToStr body), n)

/-- `generateWithHuggingFace(prompt, retries = 3)`: starts at attempt 1. -/
def generateWithHuggingFace (prompt : String) (trace : List HfResp)
    (retries : Nat) : Except String HfOk × Nat :=
  hfAttempt prompt retries trace 1

/-! ## The backup provider client — `generateWithReplicate`
(`simple.js` lines 160-228). -/

/-- Outcome of the single Replicate HTTP request: a response with status,
body text and a flag telling whether `JSON.parse` succeeds on the body, or
a network error.  The `JSON.parse` exception message is abstracted by the
body text. -/
inductive RepResp where
  | http (status : Nat) (body : String) (parseOk : Bool)
  | netErr (msg : String)
deriving DecidableEq, Repr

/-- The fixed SVG the Replicate branch resolves with on HTTP 201
(`simple.js` lines 202-209): the prediction is never polled, a placeholder
is returned immediately. -/
def replicateSvg : String :=
  "\n                <svg width=\"1024\" height=\"1024\" xmlns=\"http://www.w3.org/2000/svg\">\n                  <rect width=\"100%\" height=\"100%\" fill=\"#4ECDC4\"/>\n                  <text x=\"50%\" y=\"50%\" text-anchor=\"middle\" font-family=\"Arial\" font-size=\"32\" fill=\"white\">\n                    Replicate API Processing...\n                  </text>\n                </svg>\n              "

/-- `data:image/svg+xml;base64,` URL wrapping an SVG body. -/
def svgDataUrl (svg : String) : String :=
  "data:image/svg+xml;base64," ++ strBase64 svg

/-- The image URL of the Replicate 201 placeholder. -/
def replicateUrl : String := svgDataUrl replicateSvg

/-- `generateWithReplicate(prompt)` (`simple.js` lines 160-228): HTTP 201
resolves with the fixed placeholder SVG; any other status, a JSON parse
failure or a network error rejects. -/
def generateWithReplicate (prompt : String) (r : RepResp) : Except String HfOk :=
  match r with
  | RepResp.netErr msg => Except.error ("Replicate request error: " ++ msg)
  | RepResp.http status body parseOk =>
    if parseOk = false then
      Except.error ("Replicate response parsing error: " ++ body)
    else if status = 201 then Except.ok ⟨replicateUrl, prompt⟩
    else Except.error ("Replicate API error: " ++ toString status ++ " - " ++ body)

/-! ## The placeholder generators (`simple.js` lines 328-347 and 364-386).

Both are SVG template literals over the validated preferences; the literal
segments between the interpolation points are split out as constants so
that the structural theorems can locate the interpolated parts. -/

/-- Demo-mode template, literal text up to the first gradient stop colour. -/
def demoA1 : String :=
  "\n          <svg width=\"1024\" height=\"1024\" xmlns=\"http://www.w3.org/2000/svg\">\n            <defs>\n              <linearGradient id=\"grad1\" x1=\"0%\" y1=\"0%\" x2=\"100%\" y2=\"100%\">\n                <stop offset=\"0%\" style=\""

/-- Demo-mode template, between the two gradient stops. -/
def demoA2 : String :=
  "\" />\n                <stop offset=\"100%\" style=\""

/-- Demo-mode template, from the second stop to the title text. -/
def demoA3 : String :=
  "\" />\n              </linearGradient>\n            </defs>\n            <rect width=\"100%\" height=\"100%\" fill=\"url(#grad1)\" />\n            <text x=\"50%\" y=\"45%\" text-anchor=\"middle\" font-family=\"Arial, sans-serif\" font-size=\"48\" fill=\"white\" font-weight=\"bold\">\n              "

/-- Demo-mode template, between the title and the gender line. -/
def demoA4 : String :=
  "\n            </text>\n            <text x=\"50%\" y=\"55%\" text-anchor=\"middle\" font-family=\"Arial, sans-serif\" font-size=\"32\" fill=\"white\">\n              "

/-- Demo-mode template, between the gender line and the fixed caption. -/
def demoA5 : String :=
  "\n            </text>\n            <text x=\"50%\" y=\"65%\" text-anchor=\"middle\" font-family=\"Arial, sans-serif\" font-size=\"24\" fill=\"rgba(255,255,255,0.8)\">\n              "

/-- Demo-mode template, closing text after the caption. -/
def demoA6 : String :=
  "\n            </text>\n          </svg>\n        "

/-- The fixed caption of the demo-mode placeholder. -/
def demoCaption : String := "Demo Mode - Get Hugging Face API Token"

/-- The demo-mode placeholder SVG (`simple.js` lines 328-347): a two-stop
gradient from the first colour (default #FF6B6B) to the second colour
(default #4ECDC4), the
upper-cased style and occasion, the gender line, and the fixed caption. -/
def demoSvg (style occasion gender : String) (colors : List String) : String :=
  demoA1 ++ (("stop-color:" ++ jsOrStr colors[0]? "#FF6B6B" ++ ";stop-opacity:1")
  ++ (demoA2 ++ (("stop-color:" ++ jsOrStr colors[1]? "#4ECDC4" ++ ";stop-opacity:1")
  ++ (demoA3 ++ ((style.toUpper ++ " " ++ occasion.toUpper)
  ++ (demoA4 ++ ((gender ++ " Fashion Design")
  ++ (demoA5 ++ (demoCaption ++ demoA6)))))))))

/-- Fallback template, literal text up to the first gradient stop colour. -/
def fbA1 : String :=
  "\n            <svg width=\"1024\" height=\"1024\" xmlns=\"http://www.w3.org/2000/svg\">\n              <defs>\n                <linearGradient id=\"grad1\" x1=\"0%\" y1=\"0%\" x2=\"100%\" y2=\"100%\">\n                  <stop offset=\"0%\" style=\""

/-- Fallback template, between the two gradient stops. -/
def fbA2 : String :=
  "\" />\n                  <stop offset=\"100%\" style=\""

/-- Fallback template, from the second stop to the title text. -/
def fbA3 : String :=
  "\" />\n                </linearGradient>\n              </defs>\n              <rect width=\"100%\" height=\"100%\" fill=\"url(#grad1)\" />\n              <text x=\"50%\" y=\"40%\" text-anchor=\"middle\" font-family=\"Arial, sans-serif\" font-size=\"48\" fill=\"white\" font-weight=\"bold\">\n                "

/-- Fallback template, between the title and the gender line. -/
def fbA4 : String :=
  "\n              </text>\n              <text x=\"50%\" y=\"50%\" text-anchor=\"middle\" font-family=\"Arial, sans-serif\" font-size=\"32\" fill=\"white\">\n                "

/-- Fallback template, between the gender line and the first caption. -/
def fbA5 : String :=
  "\n              </text>\n              <text x=\"50%\" y=\"60%\" text-anchor=\"middle\" font-family=\"Arial, sans-serif\" font-size=\"20\" fill=\"rgba(255,255,255,0.8)\">\n                "

/-- Fallback template, between the two captions. -/
def fbA6 : String :=
  "\n              </text>\n              <text x=\"50%\" y=\"65%\" text-anchor=\"middle\" font-family=\"Arial, sans-serif\" font-size=\"16\" fill=\"rgba(255,255,255,0.7)\">\n                "

/-- Fallback template, closing text after the second caption. -/
def fbA7 : String :=
  "\n              </text>\n            </svg>\n          "

/-- The first fixed caption of the fallback placeholder. -/
def fbCaption1 : String := "API Credits Exceeded"

/-- The second fixed caption of the fallback placeholder. -/
def fbCaption2 : String := "Get new Hugging Face token"

/-- The fallback placeholder SVG used when both providers fail
(`simple.js` lines 364-386); same structure as the demo one, with two
captions about exhausted API credits. -/
def fallbackSvg (style occasion gender : String) (colors : List String) : String :=
  fbA1 ++ (("stop-color:" ++ jsOrStr colors[0]? "#FF6B6B" ++ ";stop-opacity:1")
  ++ (fbA2 ++ (("stop-color:" ++ jsOrStr colors[1]? "#4ECDC4" ++ ";stop-opacity:1")
  ++ (fbA3 ++ ((style.toUpper ++ " " ++ occasion.toUpper)
  ++ (fbA4 ++ ((gender ++ " Fashion Design")
  ++ (fbA5 ++ (fbCaption1
  ++ (fbA6 ++ (fbCaption2 ++ fbA7)))))))))))

/-- Image URL of the demo-mode placeholder. -/
def demoUrl (style occasion gender : String) (colors : List String) : String :=
  svgDataUrl (demoSvg style occasion gender colors)

/-- Image URL of the fallback placeholder. -/
def fallbackUrl (style occasion gender : String) (colors : List String) : String :=
  svgDataUrl (fallbackSvg style occasion gender colors)

/-! ## The `POST /api/designs/generate` handler (`simple.js` lines 268-431). -/

/-- The `colors` field of the request body: absent, present but not an
array, or an array of colour strings. -/
inductive ColorsField where
  | missing
  | notArray
  | arr (cs : List String)
deriving DecidableEq, Repr

/-- The request body as destructured by the handler.  `none` models an
absent (`undefined`) field, for which the destructuring default fires. -/
structure ReqBody where
  gender : Option String
  occasion : Option String
  style : Option String
  colors : ColorsField
  demoMode : Bool
deriving DecidableEq, Repr

/-- Destructuring default of gender to unisex (`simple.js` line 274). -/
def resolvedGender (b : ReqBody) : String := b.gender.getD "unisex"

/-- Destructuring default of occasion to casual (`simple.js` line 275). -/
def resolvedOccasion (b : ReqBody) : String := b.occasion.getD "casual"

/-- Destructuring default of style to modern (`simple.js` line 276). -/
def resolvedStyle (b : ReqBody) : String := b.style.getD "modern"

/-- Destructuring default of colors to the pair #FF6B6B, #4ECDC4
(`simple.js` line 277): fires only when the field is absent. -/
def resolvedColors (b : ReqBody) : ColorsField :=
  match b.colors with
  | ColorsField.missing => ColorsField.arr ["#FF6B6B", "#4ECDC4"]
  | x => x

/-- The colour list the handler works with once validation has passed. -/
def colorsOf (b : ReqBody) : List String :=
  match resolvedColors b with
  | ColorsField.arr cs => cs
  | _ => []

/-- `validGenders` (`simple.js` line 282). -/
def validGenders : List String := ["male", "female", "unisex", "other"]

/-- `validOccasions` (`simple.js` line 283). -/
def validOccasions : List String :=
  ["casual", "formal", "party", "business", "sport", "sports", "wedding",
   "vacation", "date"]

/-- `validStyles` (`simple.js` line 284). -/
def validStyles : List String :=
  ["modern", "vintage", "bohemian", "minimalist", "classic", "trendy",
   "streetwear", "elegant"]

/-- The inline prompt template of the handler (`simple.js` line 318);
colours are joined verbatim with " and ", with no hex-to-name mapping. -/
def inlinePrompt (style occasion gender : String) (colors : List String) : String :=
  "A professional fashion design illustration of a " ++ style ++ " " ++ occasion
    ++ " outfit for " ++ gender ++ ", featuring " ++ jsJoin " and " colors
    ++ " colors, high-quality fashion illustration, clean professional presentation, fashion portfolio style, detailed clothing design, modern aesthetic, studio lighting, white background"

/-- The prompt the handler builds for a given request body. -/
def promptOf (b : ReqBody) : String :=
  inlinePrompt (resolvedStyle b) (resolvedOccasion b) (resolvedGender b) (colorsOf b)

/-- The JSON replies of the handler.  `badRequest` is a 400 validation
reply with its `error` and `message` fields; `success` is the 200 reply,
projected to the fields the orchestration layer determines: the image URL,
the prompt, the constant provider attribution of `aiGeneration.provider`,
and the `demoMode` flag; `serverError` is the 500 reply of the outer
`catch`, never produced by the modelled control flow. -/
inductive ApiResponse where
  | badRequest (error message : String)
  | success (imageUrl prompt provider : String) (demoFlag : Bool)
  | serverError (message : String)
deriving DecidableEq, Repr

/-- Whether a reply is the 200 success reply. -/
def ApiResponse.isSuccess : ApiResponse → Bool
  | ApiResponse.success _ _ _ _ => true
  | _ => false

/-- The image URL of a success reply. -/
def ApiResponse.imageUrlOf : ApiResponse → String
  | ApiResponse.success u _ _ _ => u
  | _ => ""

/-- The prompt of a success reply. -/
def ApiResponse.promptOf : ApiResponse → String
  | ApiResponse.success _ p _ _ => p
  | _ => ""

/-- The provider attribution of a success reply. -/
def ApiResponse.providerOf : ApiResponse → String
  | ApiResponse.success _ _ p _ => p
  | _ => ""

/-- The `demoMode` flag of a success reply. -/
def ApiResponse.demoFlagOf : ApiResponse → Bool
  | ApiResponse.success _ _ _ d => d
  | _ => false

/-- The observable outcome of one handler invocation: the JSON reply, the
number of attempts issued against the primary provider, and whether the
backup provider was invoked. -/
structure HandlerOutcome where
  response : ApiResponse
  hfAttempts : Nat
  replicateCalled : Bool
deriving DecidableEq, Repr

/-- Assembly of the 200 reply (`simple.js` lines 393-421): the provider
attribution is the constant "Hugging Face", and
isDemo is demoMode, or DEMO_MODE, or a substring search for svg+xml over
the image URL. -/
def finishResponse (b : ReqBody) (envDemo : Bool) (result : HfOk)
    (attempts : Nat) (repCalled : Bool) : HandlerOutcome :=
  ⟨ApiResponse.success result.imageUrl result.prompt "Hugging Face"
      (b.demoMode || envDemo || jsIncludes result.imageUrl "svg+xml"),
    attempts, repCalled⟩

/-- The 400 reply for an invalid colours field (`simple.js` lines 310-316). -/
def colorsBadRequest : HandlerOutcome :=
  ⟨ApiResponse.badRequest "Invalid colors"
      "Colors must be an array with 1-5 color values", 0, false⟩

/-- The `POST /api/designs/generate` handler (`simple.js` lines 268-431).
`envDemo` models the DEMO_MODE environment toggle, `trace` the HTTP
outcomes the primary provider client would observe, `rep` the outcome of
the single backup request.  Validation runs in source order (gender,
occasion, style, colors) and returns 400 before any provider call; demo
mode short-circuits both providers; otherwise the primary is tried with a
retry budget of 3, on failure the backup, on failure the fallback SVG. -/
def generateHandler (b : ReqBody) (envDemo : Bool) (trace : List HfResp)
    (rep : RepResp) : HandlerOutcome :=
  if validGenders.contains (resolvedGender b) = false then
    ⟨ApiResponse.badRequest "Invalid gender"
        ("Gender must be one of: " ++ jsJoin ", " validGenders), 0, false⟩
  else if validOccasions.contains (resolvedOccasion b) = false then
    ⟨ApiResponse.badRequest "Invalid occasion"
        ("Occasion must be one of: " ++ jsJoin ", " validOccasions), 0, false⟩
  else if validStyles.contains (resolvedStyle b) = false then
    ⟨ApiResponse.badRequest "Invalid style"
        ("Style must be one of: " ++ jsJoin ", " validStyles), 0, false⟩
  else
    match resolvedColors b with
    | ColorsField.missing => colorsBadRequest
    | ColorsField.notArray => colorsBadRequest
    | ColorsField.arr colors =>
      if colors.length = 0 ∨ 5 < colors.length then colorsBadRequest
      else
        let style := resolvedStyle b
        let occasion := resolvedOccasion b
        let gender := resolvedGender b
        let prompt := inlinePrompt style occasion gender colors
        if b.demoMode || envDemo then
          finishResponse b envDemo ⟨demoUrl style occasion gender colors, prompt⟩ 0 false
        else
          match generateWithHuggingFace prompt trace 3 with
          | (Except.ok r, n) => finishResponse b envDemo r n false
          | (Except.error _, n) =>
            match generateWithReplicate prompt rep with
            | Except.ok r => finishResponse b envDemo r n true
            | Except.error _ =>
              finishResponse b envDemo
                ⟨fallbackUrl style occasion gender colors, prompt⟩ n true

/-- Syntactic validity of a request body: the resolved gender, occasion
and style are in the allowed lists and the resolved colours field is an
array of 1 to 5 entries — exactly the condition under which the handler
reaches a provider. -/
def validBody (b : ReqBody) : Bool :=
  validGenders.contains (resolvedGender b) &&
  (validOccasions.contains (resolvedOccasion b) &&
  (validStyles.contains (resolvedStyle b) &&
  (match resolvedColors b with
   | ColorsField.arr cs => !(decide (cs.length = 0 ∨ 5 < cs.length))
   | _ => false)))

/-! ## The prompt builder — `generateFashionPrompt`
(`config/huggingface.js` lines 83-167). -/

/-- The hex-to-name colour lookup table (`config/huggingface.js`
lines 102-123). -/
def colorMapLookup : String → Option String
  | "#FF6B6B" => some "coral red"
  | "#4ECDC4" => some "turquoise"
  | "#45B7D1" => some "sky blue"
  | "#96CEB4" => some "mint green"
  | "#FFEAA7" => some "golden yellow"
  | "#DDA0DD" => some "lavender"
  | "#98D8C8" => some "seafoam green"
  | "#F7DC6F" => some "pale yellow"
  | "#BB8FCE" => some "light purple"
  | "#85C1E9" => some "powder blue"
  | "#F8C471" => some "peach"
  | "#82E0AA" => some "light green"
  | "#F1948A" => some "salmon pink"
  | "#A78BFA" => some "violet purple"
  | "#D7BDE2" => some "pale lavender"
  | "#000000" => some "black"
  | "#FFFFFF" => some "white"
  | "#808080" => some "gray"
  | "#8B4513" => some "brown"
  | "#2F4F4F" => some "dark gray"
  | _ => none

/-- The mood-to-phrase table (`config/huggingface.js` lines 140-148). -/
def moodLookup : String → Option String
  | "confident" => some "bold and empowering design"
  | "romantic" => some "soft and feminine aesthetic"
  | "edgy" => some "modern and rebellious style"
  | "comfortable" => some "relaxed and casual feel"
  | "professional" => some "polished and sophisticated look"
  | "playful" => some "fun and creative design"
  | "sophisticated" => some "elegant and refined appearance"
  | _ => none

/-- The season-to-phrase table (`config/huggingface.js` lines 154-159). -/
def seasonLookup : String → Option String
  | "spring" => some "perfect for mild spring weather with light layers"
  | "summer" => some "ideal for warm weather with breathable fabrics"
  | "fall" => some "suitable for cooler weather with cozy layers"
  | "winter" => some "designed for cold weather with warm materials"
  | _ => none

/-- The preference object read by `generateFashionPrompt`; the
destructuring defaults (`patterns = []`, `materials = []`,
mood defaulting to confident, season to all-season) are supplied by the
caller. -/
structure HfPreferences where
  gender : String
  occasion : String
  style : String
  colors : List String
  patterns : List String
  materials : List String
  mood : String
  season : String
deriving DecidableEq, Repr

/-- Fixed suffix of quality keywords (`config/huggingface.js` line 164). -/
def hfPromptSuffix : String :=
  "High-quality fashion illustration, clean professional presentation, fashion portfolio style, detailed clothing design, modern aesthetic, studio lighting, white background, full outfit view, fashion sketch style, detailed fabric textures, professional fashion photography style"

/-- `generateFashionPrompt(preferences)` (`config/huggingface.js`
lines 83-167).  Colour tokens go through `colorMapLookup`, falling back to
the raw token when unmapped, and are joined with " and ".  An unknown
season other than all-season renders the JavaScript interpolation of
`undefined` as the literal text `undefined`. -/
def generateFashionPrompt (p : HfPreferences) : String :=
  ("A professional fashion design illustration of a " ++ p.style ++ " "
      ++ p.occasion ++ " outfit for " ++ p.gender ++ ", ")
  ++ ((if 0 < p.colors.length then
        "featuring " ++ jsJoin " and " (p.colors.map fun c => (colorMapLookup c).getD c)
          ++ " colors, "
      else "")
  ++ ((if 0 < p.patterns.length then
        "with " ++ jsJoin " and " p.patterns ++ " patterns, "
      else "")
  ++ ((if 0 < p.materials.length then
        "made from " ++ jsJoin " and " p.materials ++ " materials, "
      else "")
  ++ (("with a " ++ (moodLookup p.mood).getD "stylish design" ++ ". ")
  ++ ((if p.season = "all-season" then ""
      else (seasonLookup p.season).getD "undefined" ++ ". ")
  ++ hfPromptSuffix)))))

/-! ## The config-layer response classification (`config/huggingface.js`
lines 205-230): `response.ok` means 2xx; a non-2xx status throws (503 and
429 with dedicated messages, anything else with status and body); a 2xx
response whose content-type does not include `image` throws; otherwise the
bytes become a JPEG data URL. -/

/-- Response classification of the config-layer `generateDesign`. -/
def hfConfigHandle (status : Nat) (contentType : Option String)
    (body : List Nat) : Except String String :=
  if ¬(200 ≤ status ∧ status < 300) then
    if status = 503 then
      Except.error "Model is loading, please try again in a few minutes."
    else if status = 429 then
      Except.error "Rate limit exceeded. Please try again later."
    else
      Except.error ("Hugging Face API error: " ++ toString status ++ " " ++ bytesToStr body)
  else
    match contentType with
    | none =>
      Except.error ("Expected image response, got: undefined. Response: " ++ bytesToStr body)
    | some ct =>
      if jsIncludes ct "image" = false then
        Except.error ("Expected image response, got: " ++ ct ++ ". Response: " ++ bytesToStr body)
      else Except.ok (jpegUrl body)

/-! ## Helper lemmas about the handler and the clients -/

theorem jsIncludes_svgDataUrl (s : String) :
    jsIncludes (svgDataUrl s) "svg+xml" = true := by
  unfold svgDataUrl
  exact jsIncludes_append_left _ _ _ (by decide)

theorem jsStartsWith_svgDataUrl (s : String) :
    jsStartsWith (svgDataUrl s) "data:image/svg+xml" = true := by
  unfold svgDataUrl
  have h : "data:image/svg+xml;base64," = "data:image/svg+xml" ++ ";base64," := by decide
  rw [h]
  unfold jsStartsWith
  rw [strToList_append, strToList_append, List.append_assoc]
  exact listIsPre_append _ _ _ (listIsPre_refl _)

theorem valid_parts (b : ReqBody) (hv : validBody b = true) :
    validGenders.contains (resolvedGender b) = true ∧
    validOccasions.contains (resolvedOccasion b) = true ∧
    validStyles.contains (resolvedStyle b) = true ∧
    ∃ cs, resolvedColors b = ColorsField.arr cs ∧ ¬(cs.length = 0 ∨ 5 < cs.length) := by
  unfold validBody at hv
  rw [Bool.and_eq_true, Bool.and_eq_true, Bool.and_eq_true] at hv
  obtain ⟨hg, ho, hs, hrest⟩ := hv
  refine ⟨hg, ho, hs, ?_⟩
  cases hc : resolvedColors b with
  | missing => rw [hc] at hrest; simp at hrest
  | notArray => rw [hc] at hrest; simp at hrest
  | arr cs =>
    rw [hc] at hrest
    refine ⟨cs, rfl, ?_⟩
    simpa using hrest

theorem colorsOf_eq (b : ReqBody) (cs : List String)
    (hc : resolvedColors b = ColorsField.arr cs) : colorsOf b = cs := by
  simp [colorsOf, hc]

theorem handler_demo (b : ReqBody) (envDemo : Bool) (trace : List HfResp)
    (rep : RepResp) (hv : validBody b = true)
    (hd : (b.demoMode || envDemo) = true) :
    generateHandler b envDemo trace rep =
      finishResponse b envDemo
        ⟨demoUrl (resolvedStyle b) (resolvedOccasion b) (resolvedGender b)
          (colorsOf b), promptOf b⟩ 0 false := by
  obtain ⟨h1, h2, h3, cs, hc, hlen⟩ := valid_parts b hv
  rw [promptOf, colorsOf_eq b cs hc]
  unfold generateHandler
  rw [h1, h2, h3, hc]
  simp only [Bool.true_eq_false, if_false]
  rw [if_neg hlen]
  simp only [hd, if_true]

theorem handler_run (b : ReqBody) (envDemo : Bool) (trace : List HfResp)
    (rep : RepResp) (hv : validBody b = true)
    (hd : (b.demoMode || envDemo) = false) :
    generateHandler b envDemo trace rep =
      match generateWithHuggingFace (promptOf b) trace 3 with
      | (Except.ok r, n) => finishResponse b envDemo r n false
      | (Except.error _, n) =>
        match generateWithReplicate (promptOf b) rep with
        | Except.ok r => finishResponse b envDemo r n true
        | Except.error _ =>
          finishResponse b envDemo
            ⟨fallbackUrl (resolvedStyle b) (resolvedOccasion b) (resolvedGender b)
              (colorsOf b), promptOf b⟩ n true := by
  obtain ⟨h1, h2, h3, cs, hc, hlen⟩ := valid_parts b hv
  rw [promptOf, colorsOf_eq b cs hc]
  unfold generateHandler
  rw [h1, h2, h3, hc]
  simp only [Bool.true_eq_false, if_false]
  rw [if_neg hlen]
  simp only [hd, Bool.false_eq_true, if_false]

theorem hfAttempt_ok_shape (prompt : String) (retries : Nat) :
    ∀ (trace : List HfResp) (n : Nat) (r : HfOk) (m : Nat),
      hfAttempt prompt retries trace n = (Except.ok r, m) →
      ∃ bdy, r = ⟨jpegUrl bdy, prompt⟩ := by
  intro trace
  induction trace with
  | nil =>
    intro n r m h
    simp [hfAttempt] at h
  | cons resp rest ih =>
    intro n r m h
    cases resp with
    | netErr msg =>
      simp only [hfAttempt] at h
      by_cases hn : n ≤ retries
      · rw [if_pos hn] at h
        exact ih _ _ _ h
      · rw [if_neg hn] at h
        simp at h
    | ok status body =>
      simp only [hfAttempt] at h
      by_cases hsz : hfSizeCap < body.length
      · rw [if_pos hsz] at h
        simp at h
      · rw [if_neg hsz] at h
        by_cases h200 : status = 200
        · rw [if_pos h200] at h
          simp only [Prod.mk.injEq, Except.ok.injEq] at h
          exact ⟨body, h.1.symm⟩
        · rw [if_neg h200] at h
          by_cases h503 : status = 503 ∧ n ≤ retries
          · rw [if_pos h503] at h
            exact ih _ _ _ h
          · rw [if_neg h503] at h
            by_cases h429 : status = 429 ∧ n ≤ retries
            · rw [if_pos h429] at h
              exact ih _ _ _ h
            · rw [if_neg h429] at h
              simp at h

theorem rep_ok_shape (prompt : String) (rep : RepResp) (r : HfOk)
    (h : generateWithReplicate prompt rep = Except.ok r) :
    r = ⟨replicateUrl, prompt⟩ := by
  cases rep with
  | netErr m => simp [generateWithReplicate] at h
  | http s bd p =>
    simp only [generateWithReplicate] at h
    by_cases hp : p = false
    · rw [if_pos hp] at h
      simp at h
    · rw [if_neg hp] at h
      by_cases h201 : s = 201
      · rw [if_pos h201] at h
        simp only [Except.ok.injEq] at h
        exact h.symm
      · rw [if_neg h201] at h
        simp at h

theorem inlinePrompt_ne (s o g : String) (cs : List String) :
    inlinePrompt s o g cs ≠ "" := by
  intro h
  have h1 : jsIncludes (inlinePrompt s o g cs) "A professional" = true := by
    unfold inlinePrompt
    refine jsIncludes_append_left _ _ _ ?_
    refine jsIncludes_append_left _ _ _ ?_
    refine jsIncludes_append_left _ _ _ ?_
    refine jsIncludes_append_left _ _ _ ?_
    refine jsIncludes_append_left _ _ _ ?_
    refine jsIncludes_append_left _ _ _ ?_
    refine jsIncludes_append_left _ _ _ ?_
    refine jsIncludes_append_left _ _ _ ?_
    exact (by decide)
  rw [h] at h1
  exact absurd h1 (by decide)

/-- Whether a provider call settled successfully. -/
def exIsOk {α : Type} (e : Except String α) : Bool :=
  match e with
  | Except.ok _ => true
  | Except.error _ => false

theorem bool_or_false_parts (a b : Bool) (h : (a || b) = false) :
    a = false ∧ b = false := by
  cases a <;> cases b <;> simp_all

/-! ## Claims -/

/-- C1: for every syntactically valid preference input the handler replies
with a 200 success (a GenerationResult), whatever the two providers do —
no provider failure propagates — and when both the primary and the backup
provider fail, the image is the locally generated fallback SVG placeholder
and the `demoMode` (placeholder) flag of the reply is `true`. -/
theorem generateDesign_total (b : ReqBody) (envDemo : Bool)
    (trace : List HfResp) (rep : RepResp) (hv : validBody b = true) :
    (generateHandler b envDemo trace rep).response.isSuccess = true ∧
    ((b.demoMode || envDemo) = false →
      exIsOk (generateWithHuggingFace (promptOf b) trace 3).1 = false →
      exIsOk (generateWithReplicate (promptOf b) rep) = false →
      (generateHandler b envDemo trace rep).response =
        ApiResponse.success
          (fallbackUrl (resolvedStyle b) (resolvedOccasion b) (resolvedGender b)
            (colorsOf b))
          (promptOf b) "Hugging Face" true) := by
  constructor
  · by_cases hd : (b.demoMode || envDemo) = true
    · rw [handler_demo b envDemo trace rep hv hd]
      rfl
    · have hd' : (b.demoMode || envDemo) = false := by
        cases hb : (b.demoMode || envDemo)
        · rfl
        · exact absurd hb hd
      rw [handler_run b envDemo trace rep hv hd']
      rcases hh : generateWithHuggingFace (promptOf b) trace 3 with ⟨res, n⟩
      cases res with
      | ok r => rfl
      | error e =>
        cases hr : generateWithReplicate (promptOf b) rep with
        | ok r => rfl
        | error e2 => rfl
  · intro hd hfail hrfail
    rw [handler_run b envDemo trace rep hv hd]
    rcases hh : generateWithHuggingFace (promptOf b) trace 3 with ⟨res, n⟩
    cases res with
    | ok r =>
      rw [hh] at hfail
      simp [exIsOk] at hfail
    | error e =>
      cases hr : generateWithReplicate (promptOf b) rep with
      | ok r =>
        rw [hr] at hrfail
        simp [exIsOk] at hrfail
      | error e2 =>
        obtain ⟨hbm, henv⟩ := bool_or_false_parts _ _ hd
        have hinc : jsIncludes
            (fallbackUrl (resolvedStyle b) (resolvedOccasion b) (resolvedGender b)
              (colorsOf b)) "svg+xml" = true :=
          jsIncludes_svgDataUrl _
        simp [finishResponse, hbm, henv, hinc]

/-- Concrete valid request body used by witnesses. -/
def sampleBody : ReqBody :=
  ⟨some "male", some "casual", some "modern", ColorsField.arr ["#000000"], false⟩

/-- A trace on which every primary attempt hits a network error. -/
def c1Trace : List HfResp :=
  [HfResp.netErr "ECONNREFUSED", HfResp.netErr "ECONNREFUSED",
   HfResp.netErr "ECONNREFUSED", HfResp.netErr "ECONNREFUSED"]

/-- A backup outcome that is a network error. -/
def c1Rep : RepResp := RepResp.netErr "ECONNREFUSED"

/-- Witness for C1: both providers unreachable, the reply is still a
success carrying the fallback placeholder with the flag set. -/
theorem generateDesign_total_witness :
    validBody sampleBody = true ∧
    ((generateHandler sampleBody false c1Trace c1Rep).response.isSuccess = true ∧
     (generateHandler sampleBody false c1Trace c1Rep).response =
       ApiResponse.success
         (fallbackUrl (resolvedStyle sampleBody) (resolvedOccasion sampleBody)
           (resolvedGender sampleBody) (colorsOf sampleBody))
         (promptOf sampleBody) "Hugging Face" true) := by
  refine ⟨by decide, ?_, ?_⟩
  · exact (generateDesign_total sampleBody false c1Trace c1Rep (by decide)).1
  · exact (generateDesign_total sampleBody false c1Trace c1Rep (by decide)).2
      (by decide) (by decide) (by decide)

/-- Wrapper of `hfAttempt_ok_shape` at the client entry point. -/
theorem gwhf_ok_shape (prompt : String) (trace : List HfResp) (retries n : Nat)
    (r : HfOk) (h : generateWithHuggingFace prompt trace retries = (Except.ok r, n)) :
    ∃ bdy, r = ⟨jpegUrl bdy, prompt⟩ :=
  hfAttempt_ok_shape prompt retries trace 1 r n h

/-- A trace whose single attempt is answered with HTTP 401. -/
def c2Trace : List HfResp := [HfResp.ok 401 []]

/-- A backup outcome accepted with HTTP 201 and a parsable body. -/
def c2Rep : RepResp := RepResp.http 201 "" true

/-- Counterexample for C2: on this run the primary provider fails with a
401, the backup tier produces the image (the reply carries the backup
placeholder URL), yet the reply attributes the result to the constant
provider string of the primary — the annotation does not name the tier
that actually produced the image. -/
theorem result_attribution_cex :
    exIsOk (generateWithHuggingFace (promptOf sampleBody) c2Trace 3).1 = false ∧
    (generateHandler sampleBody false c2Trace c2Rep).replicateCalled = true ∧
    (generateHandler sampleBody false c2Trace c2Rep).response.imageUrlOf
      = replicateUrl ∧
    (generateHandler sampleBody false c2Trace c2Rep).response.providerOf
      = "Hugging Face" ∧
    ("Hugging Face" : String) ≠ "Replicate" := by
  refine ⟨by decide, ?_, ?_, ?_, by decide⟩
  all_goals
    rw [show generateHandler sampleBody false c2Trace c2Rep =
          match generateWithHuggingFace (promptOf sampleBody) c2Trace 3 with
          | (Except.ok r, n) => finishResponse sampleBody false r n false
          | (Except.error _, n) =>
            match generateWithReplicate (promptOf sampleBody) c2Rep with
            | Except.ok r => finishResponse sampleBody false r n true
            | Except.error _ =>
              finishResponse sampleBody false
                ⟨fallbackUrl (resolvedStyle sampleBody) (resolvedOccasion sampleBody)
                  (resolvedGender sampleBody) (colorsOf sampleBody),
                  promptOf sampleBody⟩ n true
        from handler_run sampleBody false c2Trace c2Rep (by decide) (by decide)]
  all_goals
    rw [show generateWithHuggingFace (promptOf sampleBody) c2Trace 3 =
          (Except.error ("Hugging Face API error: 401 - "), 1) from rfl]
  all_goals
    rw [show generateWithReplicate (promptOf sampleBody) c2Rep =
          Except.ok ⟨replicateUrl, promptOf sampleBody⟩ from rfl]
  all_goals rfl

/-- C2 (amended): the emitted result always carries a non-empty prompt and
exactly one provider attribution, but that attribution is the constant
string `Hugging Face` whichever tier (primary, backup or placeholder)
actually produced the image; placeholder status is carried separately by
the `demoMode` flag. -/
theorem result_attribution (b : ReqBody) (envDemo : Bool)
    (trace : List HfResp) (rep : RepResp) (hv : validBody b = true) :
    (generateHandler b envDemo trace rep).response.providerOf = "Hugging Face" ∧
    (generateHandler b envDemo trace rep).response.promptOf ≠ "" := by
  by_cases hd : (b.demoMode || envDemo) = true
  · rw [handler_demo b envDemo trace rep hv hd]
    exact ⟨rfl, inlinePrompt_ne _ _ _ _⟩
  · have hd' : (b.demoMode || envDemo) = false := by
      cases hb : (b.demoMode || envDemo)
      · rfl
      · exact absurd hb hd
    rw [handler_run b envDemo trace rep hv hd']
    rcases hh : generateWithHuggingFace (promptOf b) trace 3 with ⟨res, n⟩
    cases res with
    | ok r =>
      obtain ⟨bdy, rfl⟩ := gwhf_ok_shape _ _ _ _ _ hh
      exact ⟨rfl, inlinePrompt_ne _ _ _ _⟩
    | error e =>
      cases hr : generateWithReplicate (promptOf b) rep with
      | ok r =>
        have := rep_ok_shape _ _ _ hr
        subst this
        exact ⟨rfl, inlinePrompt_ne _ _ _ _⟩
      | error e2 =>
        exact ⟨rfl, inlinePrompt_ne _ _ _ _⟩

/-- Witness for C2 (amended) at a concrete valid body and failing trace. -/
theorem result_attribution_witness :
    validBody sampleBody = true ∧
    ((generateHandler sampleBody false c1Trace c1Rep).response.providerOf
        = "Hugging Face" ∧
     (generateHandler sampleBody false c1Trace c1Rep).response.promptOf ≠ "") :=
  ⟨by decide, result_attribution sampleBody false c1Trace c1Rep (by decide)⟩

/-! ## Single-step behaviour of the primary client -/

theorem hfAttempt_200 (prompt : String) (retries : Nat) (bdy : List Nat)
    (rest : List HfResp) (n : Nat) (hs : bdy.length ≤ hfSizeCap) :
    hfAttempt prompt retries (HfResp.ok 200 bdy :: rest) n =
      (Except.ok ⟨jpegUrl bdy, prompt⟩, n) := by
  have hsz : ¬ hfSizeCap < bdy.length := by omega
  simp [hfAttempt, hsz]

theorem hfAttempt_503_step (prompt : String) (retries : Nat) (e : List Nat)
    (rest : List HfResp) (n : Nat) (hs : e.length ≤ hfSizeCap)
    (hn : n ≤ retries) :
    hfAttempt prompt retries (HfResp.ok 503 e :: rest) n =
      hfAttempt prompt retries rest (n + 1) := by
  have hsz : ¬ hfSizeCap < e.length := by omega
  simp [hfAttempt, hsz, hn]

theorem hfAttempt_429_step (prompt : String) (retries : Nat) (e : List Nat)
    (rest : List HfResp) (n : Nat) (hs : e.length ≤ hfSizeCap)
    (hn : n ≤ retries) :
    hfAttempt prompt retries (HfResp.ok 429 e :: rest) n =
      hfAttempt prompt retries rest (n + 1) := by
  have hsz : ¬ hfSizeCap < e.length := by omega
  simp [hfAttempt, hsz, hn]

theorem hfAttempt_fatal (prompt : String) (retries : Nat) (s : Nat)
    (bdy : List Nat) (rest : List HfResp) (n : Nat)
    (hs : bdy.length ≤ hfSizeCap) (h200 : s ≠ 200)
    (h503 : ¬(s = 503 ∧ n ≤ retries)) (h429 : ¬(s = 429 ∧ n ≤ retries)) :
    hfAttempt prompt retries (HfResp.ok s bdy :: rest) n =
      (Except.error
        ("Hugging Face API error: " ++ toString s ++ " - " ++ bytesToStr bdy), n) := by
  have hsz : ¬ hfSizeCap < bdy.length := by omega
  simp [hfAttempt, hsz, h200, h503, h429]

/-- C3: when the primary provider answers 503 on the first two attempts
and 200 on the third, the handler issues exactly 3 attempts against the
primary, never calls the backup, and replies with the primary image (a
JPEG data URL, not a placeholder) and the placeholder flag off. -/
theorem primary_retry_503 (b : ReqBody) (envDemo : Bool) (rep : RepResp)
    (e1 e2 bdy : List Nat) (rest : List HfResp) (hv : validBody b = true)
    (hd : (b.demoMode || envDemo) = false)
    (hs1 : e1.length ≤ hfSizeCap) (hs2 : e2.length ≤ hfSizeCap)
    (hs3 : bdy.length ≤ hfSizeCap)
    (hnotsvg : jsIncludes (jpegUrl bdy) "svg+xml" = false) :
    generateHandler b envDemo
        (HfResp.ok 503 e1 :: HfResp.ok 503 e2 :: HfResp.ok 200 bdy :: rest) rep =
      ⟨ApiResponse.success (jpegUrl bdy) (promptOf b) "Hugging Face" false,
        3, false⟩ := by
  have hg : generateWithHuggingFace (promptOf b)
      (HfResp.ok 503 e1 :: HfResp.ok 503 e2 :: HfResp.ok 200 bdy :: rest) 3 =
      (Except.ok ⟨jpegUrl bdy, promptOf b⟩, 3) := by
    unfold generateWithHuggingFace
    rw [hfAttempt_503_step _ _ _ _ _ hs1 (by omega),
      hfAttempt_503_step _ _ _ _ _ hs2 (by omega),
      hfAttempt_200 _ _ _ _ _ hs3]
  rw [handler_run b envDemo _ rep hv hd, hg]
  obtain ⟨hbm, henv⟩ := bool_or_false_parts _ _ hd
  simp [finishResponse, hbm, henv, hnotsvg]

/-- Witness for C3: a concrete 503, 503, 200 trace. -/
theorem primary_retry_503_witness :
    validBody sampleBody = true ∧
    jsIncludes (jpegUrl [255, 216]) "svg+xml" = false ∧
    generateHandler sampleBody false
        (HfResp.ok 503 [] :: HfResp.ok 503 [] :: HfResp.ok 200 [255, 216] :: [])
        c1Rep =
      ⟨ApiResponse.success (jpegUrl [255, 216]) (promptOf sampleBody)
          "Hugging Face" false, 3, false⟩ :=
  ⟨by decide, by decide,
   primary_retry_503 sampleBody false c1Rep [] [] [255, 216] [] (by decide)
     (by decide) (by decide) (by decide) (by decide) (by decide)⟩

/-- C4: when the primary provider answers 401, the handler issues exactly
one attempt against the primary (the failure is classified fatal, no
retry) and then invokes the backup provider. -/
theorem primary_401_one_attempt (b : ReqBody) (envDemo : Bool) (rep : RepResp)
    (e : List Nat) (rest : List HfResp) (hv : validBody b = true)
    (hd : (b.demoMode || envDemo) = false) (hs : e.length ≤ hfSizeCap) :
    (generateHandler b envDemo (HfResp.ok 401 e :: rest) rep).hfAttempts = 1 ∧
    (generateHandler b envDemo (HfResp.ok 401 e :: rest) rep).replicateCalled
      = true := by
  have hg : generateWithHuggingFace (promptOf b) (HfResp.ok 401 e :: rest) 3 =
      (Except.error
        ("Hugging Face API error: " ++ toString (401 : Nat) ++ " - "
          ++ bytesToStr e), 1) := by
    unfold generateWithHuggingFace
    exact hfAttempt_fatal _ _ _ _ _ _ hs (by decide)
      (by rintro ⟨h, -⟩; exact absurd h (by decide))
      (by rintro ⟨h, -⟩; exact absurd h (by decide))
  rw [handler_run b envDemo _ rep hv hd, hg]
  cases hr : generateWithReplicate (promptOf b) rep with
  | ok r => exact ⟨rfl, rfl⟩
  | error e2 => exact ⟨rfl, rfl⟩

/-- Witness for C4 at a concrete valid body. -/
theorem primary_401_one_attempt_witness :
    validBody sampleBody = true ∧
    ((generateHandler sampleBody false [HfResp.ok 401 []] c1Rep).hfAttempts = 1 ∧
     (generateHandler sampleBody false [HfResp.ok 401 []] c1Rep).replicateCalled
       = true) :=
  ⟨by decide,
   primary_401_one_attempt sampleBody false c1Rep [] [] (by decide) (by decide)
     (by decide)⟩

/-- Counterexample for C5: HTTP 201 is a 2xx status (and the orchestrator
client never inspects the content-type at all), yet the client classifies
it as a fatal failure after one attempt instead of a success. -/
theorem client_2xx_fatal_cex :
    (200 ≤ 201 ∧ 201 < 300) ∧
    generateWithHuggingFace "p" [HfResp.ok 201 []] 3 =
      (Except.error ("Hugging Face API error: 201 - "), 1) := by
  exact ⟨by decide, rfl⟩

/-- C5 (amended): in the orchestrator client, success is exactly HTTP 200
with the content-type never inspected; 503 and 429 are retried while the
attempt budget lasts; every other status — 401, 403 and also non-200 2xx
statuses — is fatal after one attempt and surfaces the status code and
response body.  The config-layer client accepts any 2xx whose
content-type includes `image`, but classifies 503 and 429 as thrown
errors without any retry, surfaces the status and body for other non-2xx
statuses, and rejects 2xx responses without an image content-type. -/
theorem client_classification (prompt : String) (rest : List HfResp) (s : Nat)
    (bdy : List Nat) (ct : String) (hs : bdy.length ≤ hfSizeCap) :
    (s = 200 →
      generateWithHuggingFace prompt (HfResp.ok s bdy :: rest) 3 =
        (Except.ok ⟨jpegUrl bdy, prompt⟩, 1)) ∧
    (s = 503 ∨ s = 429 →
      generateWithHuggingFace prompt (HfResp.ok s bdy :: rest) 3 =
        hfAttempt prompt 3 rest 2) ∧
    (s ≠ 200 → s ≠ 503 → s ≠ 429 →
      generateWithHuggingFace prompt (HfResp.ok s bdy :: rest) 3 =
        (Except.error
          ("Hugging Face API error: " ++ toString s ++ " - " ++ bytesToStr bdy),
          1)) ∧
    (200 ≤ s → s < 300 → jsIncludes ct "image" = true →
      hfConfigHandle s (some ct) bdy = Except.ok (jpegUrl bdy)) ∧
    (hfConfigHandle 503 (some ct) bdy =
      Except.error "Model is loading, please try again in a few minutes.") ∧
    (hfConfigHandle 429 (some ct) bdy =
      Except.error "Rate limit exceeded. Please try again later.") ∧
    (¬(200 ≤ s ∧ s < 300) → s ≠ 503 → s ≠ 429 →
      hfConfigHandle s (some ct) bdy =
        Except.error
          ("Hugging Face API error: " ++ toString s ++ " " ++ bytesToStr bdy)) ∧
    (200 ≤ s → s < 300 → jsIncludes ct "image" = false →
      hfConfigHandle s (some ct) bdy =
        Except.error
          ("Expected image response, got: " ++ ct ++ ". Response: "
            ++ bytesToStr bdy)) := by
  refine ⟨?_, ?_, ?_, ?_, ?_, ?_, ?_, ?_⟩
  · rintro rfl
    exact hfAttempt_200 _ _ _ _ _ hs
  · rintro (rfl | rfl)
    · exact hfAttempt_503_step _ _ _ _ _ hs (by omega)
    · exact hfAttempt_429_step _ _ _ _ _ hs (by omega)
  · intro h200 h503 h429
    exact hfAttempt_fatal _ _ _ _ _ _ hs h200
      (by rintro ⟨h, -⟩; exact h503 h) (by rintro ⟨h, -⟩; exact h429 h)
  · intro hlo hhi himg
    simp [hfConfigHandle, hlo, hhi, himg]
  · simp [hfConfigHandle]
  · simp [hfConfigHandle]
  · intro hnot h503 h429
    simp [hfConfigHandle, hnot, h503, h429]
  · intro hlo hhi himg
    simp [hfConfigHandle, hlo, hhi, himg]

/-- Witness for C5 (amended): the fatal classification of a 404 in the
orchestrator client and the 503 classification of the config client. -/
theorem client_classification_witness :
    ([] : List Nat).length ≤ hfSizeCap ∧
    generateWithHuggingFace "p" [HfResp.ok 404 []] 3 =
      (Except.error
        ("Hugging Face API error: " ++ toString (404 : Nat) ++ " - "
          ++ bytesToStr []), 1) ∧
    hfConfigHandle 503 (some "application/json") [] =
      Except.error "Model is loading, please try again in a few minutes." :=
  ⟨by decide,
   (client_classification "p" [] 404 [] "application/json" (by decide)).2.2.1
     (by decide) (by decide) (by decide),
   (client_classification "p" [] 404 [] "application/json"
     (by decide)).2.2.2.2.1⟩

/-! ## Validation-failure behaviour of the handler -/

theorem bool_not_false (x : Bool) (h : ¬ x = false) : x = true := by
  cases x
  · exact absurd rfl h
  · rfl

theorem handler_invalid (b : ReqBody) (envDemo : Bool) (trace : List HfResp)
    (rep : RepResp) (hv : validBody b = false) :
    (generateHandler b envDemo trace rep).response.isSuccess = false ∧
    (generateHandler b envDemo trace rep).hfAttempts = 0 ∧
    (generateHandler b envDemo trace rep).replicateCalled = false := by
  unfold generateHandler
  by_cases hg : validGenders.contains (resolvedGender b) = false
  · rw [if_pos hg]
    exact ⟨rfl, rfl, rfl⟩
  · rw [if_neg hg]
    by_cases ho : validOccasions.contains (resolvedOccasion b) = false
    · rw [if_pos ho]
      exact ⟨rfl, rfl, rfl⟩
    · rw [if_neg ho]
      by_cases hst : validStyles.contains (resolvedStyle b) = false
      · rw [if_pos hst]
        exact ⟨rfl, rfl, rfl⟩
      · rw [if_neg hst]
        cases hc : resolvedColors b with
        | missing => exact ⟨rfl, rfl, rfl⟩
        | notArray => exact ⟨rfl, rfl, rfl⟩
        | arr cs =>
          dsimp only
          by_cases hlen : cs.length = 0 ∨ 5 < cs.length
          · rw [if_pos hlen]
            exact ⟨rfl, rfl, rfl⟩
          · exfalso
            have hvt : validBody b = true := by
              unfold validBody
              rw [hc, bool_not_false _ hg, bool_not_false _ ho,
                bool_not_false _ hst]
              simp [hlen]
              push_neg at hlen
              refine ⟨?_, by omega⟩
              intro h0
              rw [h0] at hlen
              simp at hlen
            rw [hvt] at hv
            cases hv

theorem handler_valid_isSuccess (b : ReqBody) (envDemo : Bool)
    (trace : List HfResp) (rep : RepResp) (hv : validBody b = true) :
    (generateHandler b envDemo trace rep).response.isSuccess = true := by
  by_cases hd : (b.demoMode || envDemo) = true
  · rw [handler_demo b envDemo trace rep hv hd]
    rfl
  · have hd' : (b.demoMode || envDemo) = false := by
      cases hb : (b.demoMode || envDemo)
      · rfl
      · exact absurd hb hd
    rw [handler_run b envDemo trace rep hv hd']
    rcases hh : generateWithHuggingFace (promptOf b) trace 3 with ⟨res, n⟩
    cases res with
    | ok r => rfl
    | error e =>
      cases hr : generateWithReplicate (promptOf b) rep with
      | ok r => rfl
      | error e2 => rfl

/-- C6: a request whose colors field is the empty array is rejected with a
400 validation error before any provider is invoked (zero primary
attempts, backup never called), and conversely a request is accepted only
when the resolved colors field is an array of 1 to 5 entries. -/
theorem empty_colors_rejected (b : ReqBody) (envDemo : Bool)
    (trace : List HfResp) (rep : RepResp) :
    (b.colors = ColorsField.arr [] →
      (generateHandler b envDemo trace rep).response.isSuccess = false ∧
      (generateHandler b envDemo trace rep).hfAttempts = 0 ∧
      (generateHandler b envDemo trace rep).replicateCalled = false) ∧
    ((generateHandler b envDemo trace rep).response.isSuccess = true →
      ∃ cs, resolvedColors b = ColorsField.arr cs ∧
        0 < cs.length ∧ cs.length ≤ 5) := by
  constructor
  · intro hce
    apply handler_invalid
    unfold validBody
    have hres : resolvedColors b = ColorsField.arr [] := by
      simp [resolvedColors, hce]
    rw [hres]
    simp
  · intro hsucc
    by_cases hv : validBody b = true
    · obtain ⟨-, -, -, cs, hc, hlen⟩ := valid_parts b hv
      refine ⟨cs, hc, ?_, ?_⟩ <;> omega
    · have hv' : validBody b = false := by
        cases hvb : validBody b
        · rfl
        · exact absurd hvb hv
      rw [(handler_invalid b envDemo trace rep hv').1] at hsucc
      cases hsucc

/-- A request body carrying an empty colors array. -/
def c6Body : ReqBody :=
  ⟨some "male", some "casual", some "modern", ColorsField.arr [], false⟩

/-- Witness for C6: the empty colors array yields a 400 with no provider
activity. -/
theorem empty_colors_rejected_witness :
    c6Body.colors = ColorsField.arr [] ∧
    ((generateHandler c6Body false [] c1Rep).response.isSuccess = false ∧
     (generateHandler c6Body false [] c1Rep).hfAttempts = 0 ∧
     (generateHandler c6Body false [] c1Rep).replicateCalled = false) :=
  ⟨rfl, (empty_colors_rejected c6Body false [] c1Rep).1 rfl⟩

/-- C7: the prompt builder maps every colour token through the hex-to-name
lookup table, includes the raw token verbatim when the token is unmapped,
includes the mapped name when it is mapped, and joins the mapped names
with `and` inside the `featuring ... colors` clause. -/
theorem prompt_color_tokens (p : HfPreferences) (hne : 0 < p.colors.length) :
    jsIncludes (generateFashionPrompt p)
      ("featuring "
        ++ jsJoin " and " (p.colors.map fun c => (colorMapLookup c).getD c)
        ++ " colors, ") = true ∧
    (∀ c, c ∈ p.colors → colorMapLookup c = none →
      jsIncludes (generateFashionPrompt p) c = true) ∧
    (∀ c nm, c ∈ p.colors → colorMapLookup c = some nm →
      jsIncludes (generateFashionPrompt p) nm = true) := by
  unfold generateFashionPrompt
  rw [if_pos hne]
  refine ⟨?_, ?_, ?_⟩
  · exact jsIncludes_append_right _ _ _
      (jsIncludes_append_left _ _ _ (jsIncludes_refl _))
  · intro c hmem hnone
    refine jsIncludes_append_right _ _ _ (jsIncludes_append_left _ _ _ ?_)
    refine jsIncludes_append_left _ _ _ (jsIncludes_append_right _ _ _ ?_)
    have hmem2 : c ∈ p.colors.map fun x => (colorMapLookup x).getD x := by
      have h0 := List.mem_map_of_mem (fun x => (colorMapLookup x).getD x) hmem
      simpa [hnone] using h0
    exact jsIncludes_jsJoin _ _ _ hmem2
  · intro c nm hmem hsome
    refine jsIncludes_append_right _ _ _ (jsIncludes_append_left _ _ _ ?_)
    refine jsIncludes_append_left _ _ _ (jsIncludes_append_right _ _ _ ?_)
    have hmem2 : nm ∈ p.colors.map fun x => (colorMapLookup x).getD x := by
      have h0 := List.mem_map_of_mem (fun x => (colorMapLookup x).getD x) hmem
      simpa [hsome] using h0
    exact jsIncludes_jsJoin _ _ _ hmem2

/-- A preference object with one mapped and one unmapped colour token. -/
def c7Prefs : HfPreferences :=
  ⟨"male", "casual", "modern", ["#000000", "notacolor"], [], [],
   "confident", "all-season"⟩

/-- Witness for C7: the unmapped token appears verbatim, the mapped one by
its table name. -/
theorem prompt_color_tokens_witness :
    0 < c7Prefs.colors.length ∧
    jsIncludes (generateFashionPrompt c7Prefs) "notacolor" = true ∧
    jsIncludes (generateFashionPrompt c7Prefs) "black" = true :=
  ⟨by decide,
   (prompt_color_tokens c7Prefs (by decide)).2.1 "notacolor" (by decide)
     (by decide),
   (prompt_color_tokens c7Prefs (by decide)).2.2 "#000000" "black" (by decide)
     (by decide)⟩

/-- C8: the placeholder generators are deterministic — equal preference
inputs give byte-for-byte identical SVG output — and each output embeds a
two-colour gradient whose stops are the first two requested colours
(falling back to the fixed pair `#FF6B6B` and `#4ECDC4`), the upper-cased
style and occasion, the gender line, and a fixed caption naming the
placeholder status. -/
theorem placeholder_determinism (s o g : String) (cs : List String) :
    (∀ s2 o2 g2 cs2, s = s2 → o = o2 → g = g2 → cs = cs2 →
      demoSvg s o g cs = demoSvg s2 o2 g2 cs2 ∧
      fallbackSvg s o g cs = fallbackSvg s2 o2 g2 cs2) ∧
    jsIncludes (demoSvg s o g cs)
      ("stop-color:" ++ jsOrStr cs[0]? "#FF6B6B" ++ ";stop-opacity:1") = true ∧
    jsIncludes (demoSvg s o g cs)
      ("stop-color:" ++ jsOrStr cs[1]? "#4ECDC4" ++ ";stop-opacity:1") = true ∧
    jsIncludes (demoSvg s o g cs) (s.toUpper ++ " " ++ o.toUpper) = true ∧
    jsIncludes (demoSvg s o g cs) (g ++ " Fashion Design") = true ∧
    jsIncludes (demoSvg s o g cs) demoCaption = true ∧
    jsIncludes (fallbackSvg s o g cs)
      ("stop-color:" ++ jsOrStr cs[0]? "#FF6B6B" ++ ";stop-opacity:1") = true ∧
    jsIncludes (fallbackSvg s o g cs)
      ("stop-color:" ++ jsOrStr cs[1]? "#4ECDC4" ++ ";stop-opacity:1") = true ∧
    jsIncludes (fallbackSvg s o g cs) (s.toUpper ++ " " ++ o.toUpper) = true ∧
    jsIncludes (fallbackSvg s o g cs) (g ++ " Fashion Design") = true ∧
    jsIncludes (fallbackSvg s o g cs) fbCaption1 = true ∧
    jsIncludes (fallbackSvg s o g cs) fbCaption2 = true := by
  refine ⟨?_, ?_, ?_, ?_, ?_, ?_, ?_, ?_, ?_, ?_, ?_, ?_⟩
  · rintro s2 o2 g2 cs2 rfl rfl rfl rfl
    exact ⟨rfl, rfl⟩
  · exact jsIncludes_append_right _ _ _
      (jsIncludes_append_left _ _ _ (jsIncludes_refl _))
  · refine jsIncludes_append_right _ _ _ (jsIncludes_append_right _ _ _ ?_)
    exact jsIncludes_append_right _ _ _
      (jsIncludes_append_left _ _ _ (jsIncludes_refl _))
  · refine jsIncludes_append_right _ _ _ (jsIncludes_append_right _ _ _ ?_)
    refine jsIncludes_append_right _ _ _ (jsIncludes_append_right _ _ _ ?_)
    exact jsIncludes_append_right _ _ _
      (jsIncludes_append_left _ _ _ (jsIncludes_refl _))
  · refine jsIncludes_append_right _ _ _ (jsIncludes_append_right _ _ _ ?_)
    refine jsIncludes_append_right _ _ _ (jsIncludes_append_right _ _ _ ?_)
    refine jsIncludes_append_right _ _ _ (jsIncludes_append_right _ _ _ ?_)
    exact jsIncludes_append_right _ _ _
      (jsIncludes_append_left _ _ _ (jsIncludes_refl _))
  · refine jsIncludes_append_right _ _ _ (jsIncludes_append_right _ _ _ ?_)
    refine jsIncludes_append_right _ _ _ (jsIncludes_append_right _ _ _ ?_)
    refine jsIncludes_append_right _ _ _ (jsIncludes_append_right _ _ _ ?_)
    refine jsIncludes_append_right _ _ _ (jsIncludes_append_right _ _ _ ?_)
    exact jsIncludes_append_right _ _ _
      (jsIncludes_append_left _ _ _ (jsIncludes_refl _))
  · exact jsIncludes_append_right _ _ _
      (jsIncludes_append_left _ _ _ (jsIncludes_refl _))
  · refine jsIncludes_append_right _ _ _ (jsIncludes_append_right _ _ _ ?_)
    exact jsIncludes_append_right _ _ _
      (jsIncludes_append_left _ _ _ (jsIncludes_refl _))
  · refine jsIncludes_append_right _ _ _ (jsIncludes_append_right _ _ _ ?_)
    refine jsIncludes_append_right _ _ _ (jsIncludes_append_right _ _ _ ?_)
    exact jsIncludes_append_right _ _ _
      (jsIncludes_append_left _ _ _ (jsIncludes_refl _))
  · refine jsIncludes_append_right _ _ _ (jsIncludes_append_right _ _ _ ?_)
    refine jsIncludes_append_right _ _ _ (jsIncludes_append_right _ _ _ ?_)
    refine jsIncludes_append_right _ _ _ (jsIncludes_append_right _ _ _ ?_)
    exact jsIncludes_append_right _ _ _
      (jsIncludes_append_left _ _ _ (jsIncludes_refl _))
  · refine jsIncludes_append_right _ _ _ (jsIncludes_append_right _ _ _ ?_)
    refine jsIncludes_append_right _ _ _ (jsIncludes_append_right _ _ _ ?_)
    refine jsIncludes_append_right _ _ _ (jsIncludes_append_right _ _ _ ?_)
    refine jsIncludes_append_right _ _ _ (jsIncludes_append_right _ _ _ ?_)
    exact jsIncludes_append_right _ _ _
      (jsIncludes_append_left _ _ _ (jsIncludes_refl _))
  · refine jsIncludes_append_right _ _ _ (jsIncludes_append_right _ _ _ ?_)
    refine jsIncludes_append_right _ _ _ (jsIncludes_append_right _ _ _ ?_)
    refine jsIncludes_append_right _ _ _ (jsIncludes_append_right _ _ _ ?_)
    refine jsIncludes_append_right _ _ _ (jsIncludes_append_right _ _ _ ?_)
    refine jsIncludes_append_right _ _ _ (jsIncludes_append_right _ _ _ ?_)
    exact jsIncludes_append_right _ _ _
      (jsIncludes_append_left _ _ _ (jsIncludes_refl _))

/-- Witness for C8 at a concrete preference set with no colours. -/
theorem placeholder_determinism_witness :
    (demoSvg "modern" "casual" "unisex" [] = demoSvg "modern" "casual" "unisex" [] ∧
     fallbackSvg "modern" "casual" "unisex" []
       = fallbackSvg "modern" "casual" "unisex" []) ∧
    jsIncludes (demoSvg "modern" "casual" "unisex" []) demoCaption = true ∧
    jsIncludes (fallbackSvg "modern" "casual" "unisex" []) fbCaption1 = true :=
  ⟨(placeholder_determinism "modern" "casual" "unisex" []).1 _ _ _ _ rfl rfl rfl
      rfl,
   (placeholder_determinism "modern" "casual" "unisex" []).2.2.2.2.2.1,
   (placeholder_determinism "modern" "casual" "unisex" []).2.2.2.2.2.2.2.2.2.2.1⟩

/-- C9: missing preference fields are not rejected — the handler
substitutes the defaults unisex, casual, modern and the colour pair
#FF6B6B, #4ECDC4 for absent gender, occasion, style and colors,
so a body with all fields absent (the empty object) passes validation and
produces a success reply. -/
theorem defaults_substituted (b : ReqBody) (envDemo : Bool)
    (trace : List HfResp) (rep : RepResp) (hg : b.gender = none)
    (ho : b.occasion = none) (hs : b.style = none)
    (hc : b.colors = ColorsField.missing) :
    resolvedGender b = "unisex" ∧ resolvedOccasion b = "casual" ∧
    resolvedStyle b = "modern" ∧
    resolvedColors b = ColorsField.arr ["#FF6B6B", "#4ECDC4"] ∧
    (generateHandler b envDemo trace rep).response.isSuccess = true := by
  have h1 : resolvedGender b = "unisex" := by simp [resolvedGender, hg]
  have h2 : resolvedOccasion b = "casual" := by simp [resolvedOccasion, ho]
  have h3 : resolvedStyle b = "modern" := by simp [resolvedStyle, hs]
  have h4 : resolvedColors b = ColorsField.arr ["#FF6B6B", "#4ECDC4"] := by
    simp [resolvedColors, hc]
  refine ⟨h1, h2, h3, h4, ?_⟩
  apply handler_valid_isSuccess
  unfold validBody
  rw [h1, h2, h3, h4]
  decide

/-- The empty request body: every preference field absent. -/
def emptyBody : ReqBody := ⟨none, none, none, ColorsField.missing, false⟩

/-- Witness for C9: the empty body produces a success reply with the
documented defaults. -/
theorem defaults_substituted_witness :
    (emptyBody.gender = none ∧ emptyBody.occasion = none ∧
     emptyBody.style = none ∧ emptyBody.colors = ColorsField.missing) ∧
    (resolvedGender emptyBody = "unisex" ∧
     resolvedOccasion emptyBody = "casual" ∧
     resolvedStyle emptyBody = "modern" ∧
     resolvedColors emptyBody = ColorsField.arr ["#FF6B6B", "#4ECDC4"] ∧
     (generateHandler emptyBody false [] c1Rep).response.isSuccess = true) :=
  ⟨⟨rfl, rfl, rfl, rfl⟩,
   defaults_substituted emptyBody false [] c1Rep rfl rfl rfl rfl⟩

/-- A trace whose single attempt succeeds with a JPEG body whose base64
rendering happens to contain the text `svg+xml`. -/
def c10Trace : List HfResp := [HfResp.ok 200 [178, 248, 62, 198, 105, 64]]

/-- Counterexample for C10: a primary-provider success whose JPEG data URL
is not an SVG data URL and where demo mode is not forced, yet the reply
carries `demoMode = true`, because the source tests the flag with a
substring search for `svg+xml` over the whole URL and the base64 payload
contains that text. -/
theorem demo_flag_cex :
    (generateHandler sampleBody false c10Trace c1Rep).response.demoFlagOf
      = true ∧
    sampleBody.demoMode = false ∧
    jsStartsWith
      ((generateHandler sampleBody false c10Trace c1Rep).response.imageUrlOf)
      "data:image/svg+xml" = false ∧
    jsStartsWith
      ((generateHandler sampleBody false c10Trace c1Rep).response.imageUrlOf)
      "data:image/jpeg" = true := by
  refine ⟨by decide, rfl, by decide, by decide⟩

/-- C10 (amended): the reply flag equals
the disjunction of demoMode, DEMO_MODE and a substring search for svg+xml
over the URL — substring containment
over the whole URL, not the property of being an SVG data URL; every run
in which the primary provider fails is flagged `true` (backup and
placeholder images are SVG data URLs); and a reply whose URL is not an
SVG data URL can only carry an image produced by the primary provider. -/
theorem demo_flag_rules (b : ReqBody) (envDemo : Bool) (trace : List HfResp)
    (rep : RepResp) (hv : validBody b = true) :
    ((generateHandler b envDemo trace rep).response.demoFlagOf =
      (b.demoMode || envDemo ||
        jsIncludes ((generateHandler b envDemo trace rep).response.imageUrlOf)
          "svg+xml")) ∧
    ((b.demoMode || envDemo) = false →
      exIsOk (generateWithHuggingFace (promptOf b) trace 3).1 = false →
      (generateHandler b envDemo trace rep).response.demoFlagOf = true) ∧
    ((b.demoMode || envDemo) = false →
      jsStartsWith ((generateHandler b envDemo trace rep).response.imageUrlOf)
        "data:image/svg+xml" = false →
      ∃ r n, generateWithHuggingFace (promptOf b) trace 3 = (Except.ok r, n) ∧
        (generateHandler b envDemo trace rep).response.imageUrlOf
          = r.imageUrl) := by
  refine ⟨?_, ?_, ?_⟩
  · by_cases hd : (b.demoMode || envDemo) = true
    · rw [handler_demo b envDemo trace rep hv hd]
      rfl
    · have hd' : (b.demoMode || envDemo) = false := by
        cases hb : (b.demoMode || envDemo)
        · rfl
        · exact absurd hb hd
      rw [handler_run b envDemo trace rep hv hd']
      rcases hh : generateWithHuggingFace (promptOf b) trace 3 with ⟨res, n⟩
      cases res with
      | ok r => rfl
      | error e =>
        cases hr : generateWithReplicate (promptOf b) rep with
        | ok r => rfl
        | error e2 => rfl
  · intro hd hfail
    rw [handler_run b envDemo trace rep hv hd]
    rcases hh : generateWithHuggingFace (promptOf b) trace 3 with ⟨res, n⟩
    cases res with
    | ok r =>
      rw [hh] at hfail
      simp [exIsOk] at hfail
    | error e =>
      obtain ⟨hbm, henv⟩ := bool_or_false_parts _ _ hd
      cases hr : generateWithReplicate (promptOf b) rep with
      | ok r =>
        have hshape := rep_ok_shape _ _ _ hr
        subst hshape
        have hinc : jsIncludes replicateUrl "svg+xml" = true :=
          jsIncludes_svgDataUrl _
        simp [finishResponse, ApiResponse.demoFlagOf, hbm, henv, hinc]
      | error e2 =>
        have hinc : jsIncludes
            (fallbackUrl (resolvedStyle b) (resolvedOccasion b)
              (resolvedGender b) (colorsOf b)) "svg+xml" = true :=
          jsIncludes_svgDataUrl _
        simp [finishResponse, ApiResponse.demoFlagOf, hbm, henv, hinc]
  · intro hd hnotsvg
    rw [handler_run b envDemo trace rep hv hd] at hnotsvg ⊢
    rcases hh : generateWithHuggingFace (promptOf b) trace 3 with ⟨res, n⟩
    rw [hh] at hnotsvg
    cases res with
    | ok r => exact ⟨r, n, rfl, rfl⟩
    | error e =>
      exfalso
      cases hr : generateWithReplicate (promptOf b) rep with
      | ok r =>
        rw [hr] at hnotsvg
        have hshape := rep_ok_shape _ _ _ hr
        subst hshape
        simp [finishResponse, ApiResponse.imageUrlOf, replicateUrl] at hnotsvg
        exact absurd (jsStartsWith_svgDataUrl replicateSvg) (by simp [hnotsvg])
      | error e2 =>
        rw [hr] at hnotsvg
        simp [finishResponse, ApiResponse.imageUrlOf, fallbackUrl] at hnotsvg
        exact absurd
          (jsStartsWith_svgDataUrl
            (fallbackSvg (resolvedStyle b) (resolvedOccasion b)
              (resolvedGender b) (colorsOf b)))
          (by simp [hnotsvg])

/-- Witness for C10 (amended) on a trace where the primary fails. -/
theorem demo_flag_rules_witness :
    validBody sampleBody = true ∧
    (generateHandler sampleBody false c1Trace c1Rep).response.demoFlagOf =
      (sampleBody.demoMode || false ||
        jsIncludes
          ((generateHandler sampleBody false c1Trace c1Rep).response.imageUrlOf)
          "svg+xml") ∧
    (generateHandler sampleBody false c1Trace c1Rep).response.demoFlagOf
      = true :=
  ⟨by decide,
   (demo_flag_rules sampleBody false c1Trace c1Rep (by decide)).1,
   (demo_flag_rules sampleBody false c1Trace c1Rep (by decide)).2.1 (by decide)
     (by decide)⟩

end StyleGen
